import Mathlib

/-!
# Shurly — slug resolution and redirect engine, shallow embedding

A shallow embedding of the redirect core of the `shurly` URL shortener
(`src/database/mod.rs`, `src/root.rs`), with theorems checking the
natural-language specification against it.

Conventions of the embedding:
* `Uuid` and timestamps become `Nat`; IP addresses become `String`.
* SQL point lookups over the `destinations` / `aliases` tables become
  `List.find?` over snapshot lists; every query can also fail with a
  connection error, modelled by a single fault field on the store (sqlx
  errors, constraint violations included, are all mapped by the source to
  `Error::Connection` via `connection_error`).
* The moka cache value `Arc<Option<SlugFoundSummary>>` becomes
  `Option SlugFoundSummary` (the `Arc` is transparent sharing).
* Async functions become explicit state passing.
-/

namespace Shurly

/-- Model of `uuid::Uuid`. -/
abbrev Uuid := Nat

/-- Model of `chrono::NaiveDateTime` / `DateTime<Utc>` instants. -/
abbrev Timestamp := Nat

/-- Model of `std::net::IpAddr`. -/
abbrev IpAddr := String

/-- `src/destinations.rs`: struct `Destination`. -/
structure Destination where
  id : Uuid
  userId : Uuid
  slug : String
  url : String
  isPermanent : Bool
  forwardQueryParameters : Bool
  createdAt : Timestamp
  updatedAt : Timestamp
  deletedAt : Option Timestamp
  deriving Repr, DecidableEq

/-- `Destination::is_deleted`: the soft-delete timestamp is set. -/
def Destination.isDeleted (d : Destination) : Bool :=
  d.deletedAt.isSome

/-- `src/aliases.rs`: struct `Alias`. -/
structure Alias where
  id : Uuid
  userId : Uuid
  slug : String
  destinationId : Uuid
  createdAt : Timestamp
  updatedAt : Timestamp
  deletedAt : Option Timestamp
  deriving Repr, DecidableEq

/-- `Alias::is_deleted`: the soft-delete timestamp is set. -/
def Alias.isDeleted (a : Alias) : Bool :=
  a.deletedAt.isSome

/-- `src/database/mod.rs`: enum `Error` (storage errors). -/
inductive DbError where
  /-- `Error::Connection` -/
  | connection (msg : String)
  /-- `Error::PageHitScheduling` -/
  | pageHitScheduling (msg : String)
  deriving Repr, DecidableEq

/-- `impl fmt::Display for Error` in `src/database/mod.rs`. -/
def DbError.toDisplay : DbError → String
  | .connection e => "Connection error: " ++ e
  | .pageHitScheduling e => "Page hit scheduling error: " ++ e

/-- `src/database/mod.rs`: enum `SlugFoundSummary`. -/
inductive SlugFoundSummary where
  /-- `SlugFoundSummary::DestinationExists` -/
  | destinationExists (destination : Destination)
  /-- `SlugFoundSummary::DestinationDeleted` -/
  | destinationDeleted (destination : Destination) (alias? : Option Alias)
  /-- `SlugFoundSummary::AliasExists` -/
  | aliasExists (a : Alias) (destination : Destination)
  /-- `SlugFoundSummary::AliasDeleted` -/
  | aliasDeleted (a : Alias) (destination : Destination)
  deriving Repr, DecidableEq

/-- `SlugFoundSummary::destination`. -/
def SlugFoundSummary.destination : SlugFoundSummary → Destination
  | .destinationExists d => d
  | .destinationDeleted d _ => d
  | .aliasExists _ d => d
  | .aliasDeleted _ d => d

/-- `SlugFoundSummary::alias`. -/
def SlugFoundSummary.aliasOf : SlugFoundSummary → Option Alias
  | .destinationExists _ => none
  | .destinationDeleted _ a? => a?
  | .aliasExists a _ => some a
  | .aliasDeleted a _ => some a

/-- `SlugFoundSummary::is_deleted`. -/
def SlugFoundSummary.isDeleted : SlugFoundSummary → Bool
  | .destinationDeleted _ _ => true
  | .aliasDeleted _ _ => true
  | .destinationExists _ => false
  | .aliasExists _ _ => false

/-- The durable store (the Postgres tables reached through the `sqlx` pool).
`connFault` injects a connection failure: when set, every query fails with
`Error::Connection` of that message, the way `connection_error` maps any
sqlx error in `src/database/mod.rs`. -/
structure Store where
  destinations : List Destination
  aliases : List Alias
  connFault : Option String

/-- `Database::find_single_destination_by_slug`: `SELECT * FROM destinations
WHERE slug = $1 LIMIT 1` — does NOT respect the soft-delete. -/
def findSingleDestinationBySlug (st : Store) (slug : String) :
    Except DbError (Option Destination) :=
  match st.connFault with
  | some m => .error (.connection m)
  | none => .ok (st.destinations.find? (fun d => d.slug = slug))

/-- `Database::find_single_destination_by_id_unchecked`: `SELECT * FROM
destinations WHERE id = $1 LIMIT 1` — does NOT respect the soft-delete. -/
def findSingleDestinationByIdUnchecked (st : Store) (id : Uuid) :
    Except DbError (Option Destination) :=
  match st.connFault with
  | some m => .error (.connection m)
  | none => .ok (st.destinations.find? (fun d => d.id = id))

/-- `Database::find_single_alias_by_slug`: `SELECT * FROM aliases WHERE
slug = $1 LIMIT 1` — does NOT respect the soft-delete. -/
def findSingleAliasBySlug (st : Store) (slug : String) :
    Except DbError (Option Alias) :=
  match st.connFault with
  | some m => .error (.connection m)
  | none => .ok (st.aliases.find? (fun a => a.slug = slug))

/-- `fetch_destination_by_slug` in `src/database/mod.rs`: destination lookup
first; otherwise alias lookup, then the alias's destination. A deleted
destination dominates (`DestinationDeleted`), then a deleted alias
(`AliasDeleted`), else `AliasExists`.

The Rust `.expect("Alias has valid destination_id")` panics when the alias
points at no destination row; that branch is modelled as an error so the
function stays total — no theorem below exercises it. -/
def fetchDestinationBySlug (st : Store) (slug : String) :
    Except DbError (Option SlugFoundSummary) := do
  let destination ← findSingleDestinationBySlug st slug
  match destination with
  | some destination =>
    if destination.isDeleted then
      return some (.destinationDeleted destination none)
    else
      return some (.destinationExists destination)
  | none =>
    let alias? ← findSingleAliasBySlug st slug
    match alias? with
    | some a =>
      let destination? ← findSingleDestinationByIdUnchecked st a.destinationId
      match destination? with
      | none => .error (.connection "panic: Alias has valid destination_id")
      | some destination =>
        if destination.isDeleted then
          return some (.destinationDeleted destination (some a))
        else if a.isDeleted then
          return some (.aliasDeleted a destination)
        else
          return some (.aliasExists a destination)
    | none => return none

/-- The slug-found cache contents: key to cached resolution value, the
explicit negative entry `none` included (`SlugFoundCache` wraps
`moka::future::Cache<String, Arc<Option<SlugFoundSummary>>>`). -/
abbrev CacheMap := List (String × Option SlugFoundSummary)

/-- Cache point lookup: `some v` when an entry (hit or negative) is present. -/
def cacheLookup (cache : CacheMap) (slug : String) :
    Option (Option SlugFoundSummary) :=
  (cache.find? (fun e => e.1 = slug)).map (fun e => e.2)

/-- `Cache::invalidate`: unconditionally remove any entry for the key. -/
def cacheInvalidate (cache : CacheMap) (slug : String) : CacheMap :=
  cache.filter (fun e => e.1 ≠ slug)

/-- `Database::fetch_cached_destination_by_slug`, i.e. moka
`Cache::try_get_with_by_ref` around `fetch_destination_by_slug`.

Modelled from the spec: moka is a dependency whose sources are not part of
this repository; per its documented contract (and spec section 4.1), a
cached entry is returned as is; otherwise the fetch runs, a successful
value (the negative `none` included) is inserted, and a failed fetch
returns the error while leaving the cache untouched. The single-flight
deduplication across concurrent callers is not representable sequentially
and is not modelled here. -/
def fetchCachedDestinationBySlug (st : Store) (cache : CacheMap)
    (slug : String) :
    Except DbError (Option SlugFoundSummary) × CacheMap :=
  match cacheLookup cache slug with
  | some v => (.ok v, cache)
  | none =>
    match fetchDestinationBySlug st slug with
    | .ok v => (.ok v, (slug, v) :: cache)
    | .error e => (.error e, cache)

/-- `src/database/mod.rs`: struct `PageHitInformation`. -/
structure PageHitInformation where
  destinationId : Uuid
  aliasId : Option Uuid
  ipAddress : Option IpAddr
  userAgent : Option String
  whenHit : Timestamp
  deriving Repr, DecidableEq

/-- `PAGE_HIT_COLLECTOR_CHANNEL_CAPACITY` in `src/database/mod.rs`. -/
def PAGE_HIT_COLLECTOR_CHANNEL_CAPACITY : Nat := 10000

/-- Outcome of one `tokio::sync::mpsc::Sender::send(...).await` call. -/
inductive SendOutcome where
  /-- The item was placed in the queue; `send` returned `Ok(())`. -/
  | sent (queue : List PageHitInformation)
  /-- The queue is at capacity and the receiver still lives: `send` suspends
  until capacity frees — it does not return yet. -/
  | waitsForCapacity
  /-- The receiver is gone: `send` returns `Err(SendError)`, whose display
  is "channel closed". -/
  | closed (msg : String)
  deriving Repr, DecidableEq

/-- One `send(...).await` on the bounded page-hit channel. Tokio's bounded
`mpsc` sender waits for capacity when the queue is full (the source comment
on `PAGE_HIT_COLLECTOR_CHANNEL_CAPACITY` says saturating bursts mean later
requests "will need to wait a bit") and errors only when the channel is
closed. -/
def mpscSend (capacity : Nat) (isClosed : Bool)
    (queue : List PageHitInformation) (item : PageHitInformation) :
    SendOutcome :=
  if isClosed then
    .closed "channel closed"
  else if queue.length < capacity then
    .sent (queue ++ [item])
  else
    .waitsForCapacity

/-- The in-process mutable state of `Database`: the store reached through
the pool, the slug-found cache, and the page-hit channel (its queued items
plus whether the receiver side is gone). -/
structure AppState where
  store : Store
  cache : CacheMap
  hitQueue : List PageHitInformation
  hitChannelClosed : Bool

/-- Result of `Database::schedule_save_hit` as observed by its caller. -/
inductive ScheduleOutcome where
  /-- `Ok(())`, with the state holding the newly queued hit. -/
  | ok (st : AppState)
  /-- `Err(Error::PageHitScheduling(..))`. -/
  | schedulingError (e : DbError)
  /-- The `send(...).await` suspended on a full queue: the call has not
  returned to its caller yet. -/
  | waitsForCapacity

/-- Is the outcome an `Err(Error::PageHitScheduling(..))`? -/
def ScheduleOutcome.isSchedulingError : ScheduleOutcome → Bool
  | .schedulingError _ => true
  | _ => false

/-- `Database::schedule_save_hit`: build the `PageHitInformation` (capturing
the moment `when` at scheduling time) and `send(...).await` it on the
bounded channel; a send error is wrapped as
`Error::PageHitScheduling("Could not schedule page hit: {err}")`. -/
def scheduleSaveHit (st : AppState) (destinationId : Uuid)
    (aliasId : Option Uuid) (ipAddress : Option IpAddr)
    (userAgent : Option String) (now : Timestamp) : ScheduleOutcome :=
  let item : PageHitInformation :=
    ⟨destinationId, aliasId, ipAddress, userAgent, now⟩
  match mpscSend PAGE_HIT_COLLECTOR_CHANNEL_CAPACITY st.hitChannelClosed
      st.hitQueue item with
  | .sent queue => .ok { st with hitQueue := queue }
  | .closed msg =>
    .schedulingError (.pageHitScheduling ("Could not schedule page hit: " ++ msg))
  | .waitsForCapacity => .waitsForCapacity

/-- Characters split on a separator, empty runs kept (the separator-run
structure of `str::split`). -/
def splitCharList (c : Char) : List Char → List (List Char)
  | [] => [[]]
  | x :: t =>
    if x = c then [] :: splitCharList c t
    else
      match splitCharList c t with
      | [] => [[x]]
      | h :: r => (x :: h) :: r

/-- One query piece split at its first `=` (`form_urlencoded` pair parsing):
name before the first `=`, value after it; a piece without `=` has the
empty value. -/
def parseQueryPair (piece : List Char) : String × String :=
  ((piece.takeWhile (fun c => c ≠ '=')).asString,
   ((piece.dropWhile (fun c => c ≠ '=')).drop 1).asString)

/-- A raw query string parsed into ordered name/value pairs, the way
`Url::query_pairs` exposes it: split on `&`, empty pieces skipped, each
piece split at its first `=`. Percent-escapes are outside the modelled
fragment (plain ASCII pairs round-trip unchanged through the url crate). -/
def parseQueryPairs (query : String) : List (String × String) :=
  (splitCharList '&' query.toList).filterMap fun piece =>
    if piece.isEmpty then none else some (parseQueryPair piece)

/-- A destination URL split into its part before `?` and its parsed query
pairs (`parse_url` in `src/api/request.rs` is `Url::parse`; destination
URLs are stored from already-valid `Url` values, so parsing succeeds). -/
def parseUrl (url : String) : String × List (String × String) :=
  ((url.toList.takeWhile (fun c => c ≠ '?')).asString,
   parseQueryPairs (((url.toList.dropWhile (fun c => c ≠ '?')).drop 1).asString))

/-- Serialization of query pairs, as the url crate writes them back. -/
def renderQueryPairs (pairs : List (String × String)) : String :=
  String.intercalate "&" (pairs.map fun p => p.1 ++ "=" ++ p.2)

/-- A base URL with a (possibly empty) merged query string. -/
def renderUrl (base : String) (pairs : List (String × String)) : String :=
  if pairs.isEmpty then base else base ++ "?" ++ renderQueryPairs pairs

/-- The query-forwarding loop of `root` (`src/root.rs` lines 83-107): the
destination URL's own pairs stay in place; each incoming pair whose name is
not in the `HashSet` of destination-URL parameter names is appended via
`append_pair`, in incoming order. -/
def mergeQueryParams (locationPairs incomingPairs : List (String × String)) :
    List (String × String) :=
  let locationQueryParamNames := locationPairs.map fun p => p.1
  incomingPairs.foldl
    (fun acc p =>
      if locationQueryParamNames.contains p.1 then acc else acc ++ [p])
    locationPairs

/-- Modelled from the spec: `src/pages/404.html` (`include_str` target) is
not among the sources; the body is an opaque fixed page. -/
def notFoundHtml : String := "<html><body>404 Not Found page</body></html>"

/-- Modelled from the spec: `src/pages/500.html` is not among the sources;
per the source doc comment it is a fixed template with one placeholder for
the current error message, so rendering is literal text around the
message. -/
def errorTemplateHead : String := "<html><body><h1>Error</h1><p>"

/-- Modelled from the spec: the template text after the placeholder. -/
def errorTemplateTail : String := "</p></body></html>"

/-- `render_error_template` in `src/root.rs`: the template with the error
placeholder replaced by the given message. -/
def renderErrorTemplate (error : String) : String :=
  errorTemplateHead ++ error ++ errorTemplateTail

/-- `internal_error` in `src/root.rs`: any error becomes a
`500 Internal Server Error` with the error's display string rendered into
the error template. -/
def internalError (e : DbError) : Nat × String :=
  (500, renderErrorTemplate e.toDisplay)

/-- The HTTP-level outcome of `root`
(`Result<Redirect, (StatusCode, Html<String>)>`). -/
inductive RootOutcome where
  /-- `Ok(Redirect::temporary(..))` — 307, with the `Location` URL. -/
  | redirectTemporary (location : String)
  /-- `Ok(Redirect::permanent(..))` — 308, with the `Location` URL. -/
  | redirectPermanent (location : String)
  /-- `Err((status, Html(body)))`. -/
  | errorResponse (status : Nat) (body : String)
  /-- The handler is suspended in `send(...).await` on a full hit queue:
  no response has been produced yet. -/
  | waitsForCapacity
  deriving Repr, DecidableEq

/-- `root` in `src/root.rs` after the slug has been formed (trimmed,
percent-decoded, NFC-normalized): resolve through the cache (errors map
through `internal_error` to 500), 404 on no summary, then schedule the hit
(errors map through `internal_error` to 500), then 410 for a deleted
summary, else redirect with optional query forwarding.

`incomingQuery` is the raw query string of the incoming URI
(`Uri::path_and_query` is present on origin-form requests, so the
forwarding branch is guarded by `forward_query_parameters` alone). -/
def rootAfterDecode (st : AppState) (slug : String)
    (incomingQuery : Option String) (ip : Option IpAddr)
    (ua : Option String) (now : Timestamp) : RootOutcome × AppState :=
  match fetchCachedDestinationBySlug st.store st.cache slug with
  | (.error e, cache2) =>
    (.errorResponse (internalError e).1 (internalError e).2,
     { st with cache := cache2 })
  | (.ok none, cache2) =>
    (.errorResponse 404 notFoundHtml, { st with cache := cache2 })
  | (.ok (some summary), cache2) =>
    let st2 := { st with cache := cache2 }
    let destination := summary.destination
    match scheduleSaveHit st2 destination.id
        (summary.aliasOf.map fun a => a.id) ip ua now with
    | .schedulingError e =>
      (.errorResponse (internalError e).1 (internalError e).2, st2)
    | .waitsForCapacity => (.waitsForCapacity, st2)
    | .ok st3 =>
      if summary.isDeleted then
        (.errorResponse 410 (renderErrorTemplate "Page not longer exists"), st3)
      else
        let locationUrl :=
          if destination.forwardQueryParameters then
            let parsed := parseUrl destination.url
            renderUrl parsed.1
              (mergeQueryParams parsed.2
                (parseQueryPairs (incomingQuery.getD "")))
          else destination.url
        if destination.isPermanent then
          (.redirectPermanent locationUrl, st3)
        else
          (.redirectTemporary locationUrl, st3)

/-- Rust `str::trim_matches` with a `char` pattern, on the character list:
ALL leading and ALL trailing occurrences are removed. -/
def trimCharList (c : Char) (l : List Char) : List Char :=
  ((l.dropWhile (fun x => x = c)).reverse.dropWhile (fun x => x = c)).reverse

/-- `incoming_uri.path().trim_matches('/')` in `src/root.rs` line 42. -/
def trimMatches (c : Char) (s : String) : String :=
  (trimCharList c s.toList).asString

/-- The spec's words, for comparison: "Trim exactly one leading and one
trailing path separator" — strip at most one `/` from each end. -/
def trimOneSeparatorEach (s : String) : String :=
  let l := s.toList
  let l1 := if l.head? = some '/' then l.drop 1 else l
  let l2 := if l1.getLast? = some '/' then l1.dropLast else l1
  l2.asString

/-- The slug-forming steps of `root` (lines 42-43): trim the path
separators, then percent-decode and NFC-normalize (`url_decode_slug`,
whose Unicode tables are external; it is passed as a function, erroring
with a 400 on invalid UTF-8). -/
def formSlugKey (urlDecodeSlug : String → Except (Nat × String) String)
    (path : String) : Except (Nat × String) String :=
  urlDecodeSlug (trimMatches '/' path)

/-- `CreateDestinationValues` (`src/database/form_types.rs`), flattened to
the fields used by the `INSERT` in `Database::create_destination`. -/
structure CreateDestinationValues where
  userId : Uuid
  slug : String
  url : String
  isPermanent : Bool
  forwardQueryParameters : Bool

/-- `Database::create_destination`: `INSERT INTO destinations ...
RETURNING *`, then `self.slug_found_cache.invalidate(values.slug)`, then
`Ok(destination)`. `newId` is the fresh `Uuid::new_v4()`, `now` the
database `CURRENT_TIMESTAMP`. -/
def createDestination (st : AppState) (newId : Uuid) (now : Timestamp)
    (v : CreateDestinationValues) : Except DbError Destination × AppState :=
  match st.store.connFault with
  | some m => (.error (.connection m), st)
  | none =>
    let d : Destination :=
      ⟨newId, v.userId, v.slug, v.url, v.isPermanent,
       v.forwardQueryParameters, now, now, none⟩
    (.ok d,
     { st with
        store := { st.store with destinations := st.store.destinations ++ [d] },
        cache := cacheInvalidate st.cache v.slug })

/-- `UpdateDestinationValues`: optional new url / permanence / forwarding. -/
structure UpdateDestinationValues where
  url : Option String
  isPermanent : Option Bool
  forwardQueryParameters : Option Bool

/-- `Database::update_destination`: `UPDATE destinations SET url,
is_permanent, forward_query_parameters, updated_at WHERE id ... RETURNING *`
(defaults taken from the passed `destination`), then
`invalidate(&destination.slug)`, then `Ok(updated_destination)`.
`fetch_one` on a vanished row is a sqlx error, mapped to
`Error::Connection`. -/
def updateDestination (st : AppState) (destination : Destination)
    (v : UpdateDestinationValues) (now : Timestamp) :
    Except DbError Destination × AppState :=
  match st.store.connFault with
  | some m => (.error (.connection m), st)
  | none =>
    let upd := fun (d : Destination) =>
      { d with
          url := v.url.getD destination.url,
          isPermanent := v.isPermanent.getD destination.isPermanent,
          forwardQueryParameters :=
            v.forwardQueryParameters.getD destination.forwardQueryParameters,
          updatedAt := now }
    match st.store.destinations.find? (fun d => d.id = destination.id) with
    | none =>
      (.error (.connection
        "no rows returned by a query that expected to return at least one row"),
       st)
    | some row =>
      (.ok (upd row),
       { st with
          store := { st.store with
            destinations := st.store.destinations.map fun d =>
              if d.id = destination.id then upd d else d },
          cache := cacheInvalidate st.cache destination.slug })

/-- `Database::delete_destination`: `UPDATE destinations SET deleted_at =
CURRENT_TIMESTAMP WHERE id` (plain `execute`, no row-count check), then
`invalidate(&destination.slug)`, then `Ok(())`. -/
def deleteDestination (st : AppState) (destination : Destination)
    (now : Timestamp) : Except DbError Unit × AppState :=
  match st.store.connFault with
  | some m => (.error (.connection m), st)
  | none =>
    (.ok (),
     { st with
        store := { st.store with
          destinations := st.store.destinations.map fun d =>
            if d.id = destination.id then { d with deletedAt := some now }
            else d },
        cache := cacheInvalidate st.cache destination.slug })

/-- `CreateAliasValues`: the creating user and the alias slug. -/
structure CreateAliasValues where
  userId : Uuid
  slug : String

/-- `Database::create_alias`: `INSERT INTO aliases ... RETURNING *`, then
`invalidate(values.slug)`, then `Ok(alias)`. -/
def createAlias (st : AppState) (newId : Uuid) (now : Timestamp)
    (destination : Destination) (v : CreateAliasValues) :
    Except DbError Alias × AppState :=
  match st.store.connFault with
  | some m => (.error (.connection m), st)
  | none =>
    let a : Alias := ⟨newId, v.userId, v.slug, destination.id, now, now, none⟩
    (.ok a,
     { st with
        store := { st.store with aliases := st.store.aliases ++ [a] },
        cache := cacheInvalidate st.cache v.slug })

/-- `Database::delete_alias`: `UPDATE aliases SET deleted_at =
CURRENT_TIMESTAMP WHERE id`, then `invalidate(&alias.slug)`, then
`Ok(())`. -/
def deleteAlias (st : AppState) (a : Alias) (now : Timestamp) :
    Except DbError Unit × AppState :=
  match st.store.connFault with
  | some m => (.error (.connection m), st)
  | none =>
    (.ok (),
     { st with
        store := { st.store with
          aliases := st.store.aliases.map fun x =>
            if x.id = a.id then { x with deletedAt := some now } else x },
        cache := cacheInvalidate st.cache a.slug })

/-! ## Shared lemmas -/

/-- Invalidation removes the entry for the key: a lookup after
`invalidate(slug)` misses. -/
theorem cacheLookup_invalidate (cache : CacheMap) (slug : String) :
    cacheLookup (cacheInvalidate cache slug) slug = none := by
  induction cache with
  | nil => rfl
  | cons e t ih =>
    simp only [cacheInvalidate, cacheLookup, List.filter_cons] at ih ⊢
    by_cases h : e.1 = slug
    · rw [if_neg (by simp [h])]
      exact ih
    · rw [if_pos (by simp [h])]
      rw [List.find?_cons_of_neg _ (by simp [h])]
      exact ih

/-- The head of a `dropWhile` never satisfies the dropped predicate. -/
theorem head?_dropWhile_false {α : Type} (p : α → Bool) (l : List α) {a : α}
    (h : (l.dropWhile p).head? = some a) : p a = false := by
  induction l with
  | nil => simp [List.dropWhile] at h
  | cons x t ih =>
    by_cases hx : p x = true
    · rw [List.dropWhile_cons, if_pos hx] at h
      exact ih h
    · rw [List.dropWhile_cons, if_neg hx] at h
      simp only [List.head?_cons, Option.some.injEq] at h
      subst h
      exact Bool.eq_false_iff.mpr hx

/-- A `takeWhile` of an equality test is a run of the tested value. -/
theorem takeWhile_eq_val_replicate (c : Char) (l : List Char) :
    l.takeWhile (fun x => x = c)
      = List.replicate (l.takeWhile (fun x => x = c)).length c := by
  apply List.eq_replicate_of_mem
  intro b hb
  have h2 : (fun x => decide (x = c)) b = true :=
    List.mem_takeWhile_imp (p := fun x => decide (x = c)) hb
  exact of_decide_eq_true h2

/-- The query-forwarding fold appends exactly the incoming pairs whose
names are absent from the location pair names, in incoming order. -/
theorem foldl_append_absent (names : List String)
    (inc : List (String × String)) (acc : List (String × String)) :
    inc.foldl
        (fun acc p => if names.contains p.1 then acc else acc ++ [p]) acc
      = acc ++ inc.filter (fun p => !names.contains p.1) := by
  induction inc generalizing acc with
  | nil => simp
  | cons p t ih =>
    rw [List.foldl_cons, List.filter_cons]
    cases h : names.contains p.1 <;> simp only [] at ih ⊢ <;>
      simp at ih ⊢ <;> simp [ih]

/-- `mergeQueryParams` keeps the location pairs as an unchanged front
segment and appends the filtered incoming pairs behind them. -/
theorem mergeQueryParams_eq (loc inc : List (String × String)) :
    mergeQueryParams loc inc
      = loc ++ inc.filter (fun p => !(loc.map Prod.fst).contains p.1) := by
  unfold mergeQueryParams
  exact foldl_append_absent (loc.map Prod.fst) inc loc

/-! ## C6 — alias to a soft-deleted destination -/

/-- C6: a slug that matches no destination row but matches a live alias
whose destination is soft-deleted resolves to
`SlugFoundSummary::DestinationDeleted(destination, Some(alias))` — the
`DestinationGone` outcome carrying both records — never to `AliasExists`:
destination deletion dominates alias liveness in
`fetch_destination_by_slug`. -/
theorem c6_alias_to_deleted_destination (st : Store) (slug : String)
    (a : Alias) (d : Destination)
    (hfault : st.connFault = none)
    (hnodest : st.destinations.find? (fun x => x.slug = slug) = none)
    (halias : st.aliases.find? (fun x => x.slug = slug) = some a)
    (halive : a.deletedAt = none)
    (hbyid : st.destinations.find? (fun x => x.id = a.destinationId) = some d)
    (hdel : d.isDeleted = true) :
    fetchDestinationBySlug st slug
      = .ok (some (.destinationDeleted d (some a))) := by
  simp [fetchDestinationBySlug, findSingleDestinationBySlug,
        findSingleAliasBySlug, findSingleDestinationByIdUnchecked,
        hfault, hnodest, halias, hbyid, hdel,
        Bind.bind, Except.bind, pure, Except.pure]

/-- Witness destination for C6: soft-deleted at time 5. -/
def c6dest : Destination :=
  ⟨1, 0, "target", "https://example.com/t", false, false, 0, 0, some 5⟩

/-- Witness alias for C6: live, pointing at `c6dest`. -/
def c6alias : Alias := ⟨2, 0, "nick", 1, 0, 0, none⟩

/-- Witness store for C6. -/
def c6store : Store := ⟨[c6dest], [c6alias], none⟩

/-- C6 witness: the live alias `nick` to the deleted destination resolves
to `DestinationDeleted` with both records. -/
theorem c6_alias_to_deleted_destination_witness :
    fetchDestinationBySlug c6store "nick"
      = .ok (some (.destinationDeleted c6dest (some c6alias))) :=
  c6_alias_to_deleted_destination c6store "nick" c6alias c6dest rfl
    (by decide) (by decide) rfl (by decide) rfl

/-! ## C10 — fetch errors are never cached -/

/-- C10: resolving an uncached slug whose store fetch fails returns the
error and leaves the cache unchanged — the slug still has no entry, so a
later resolve fetches again; and in general the cache only ever gains an
entry from a successful fetch result (the explicit negative `none`
included), never from an error. -/
theorem c10_fetch_error_not_cached (st : Store) (cache : CacheMap)
    (slug : String) (e : DbError)
    (hmiss : cacheLookup cache slug = none)
    (hfetch : fetchDestinationBySlug st slug = .error e) :
    fetchCachedDestinationBySlug st cache slug = (.error e, cache)
    ∧ cacheLookup (fetchCachedDestinationBySlug st cache slug).2 slug = none
    ∧ ∀ (st2 : Store) (cache2 : CacheMap)
        (r : Except DbError (Option SlugFoundSummary)) (c2 : CacheMap),
        fetchCachedDestinationBySlug st2 cache2 slug = (r, c2) →
        c2 = cache2 ∨ ∃ v, r = .ok v ∧ c2 = (slug, v) :: cache2 := by
  refine ⟨?_, ?_, ?_⟩
  · simp [fetchCachedDestinationBySlug, hmiss, hfetch]
  · simp [fetchCachedDestinationBySlug, hmiss, hfetch]
  · intro st2 cache2 r c2 h
    unfold fetchCachedDestinationBySlug at h
    cases hl : cacheLookup cache2 slug with
    | some v =>
      rw [hl] at h
      exact Or.inl (Prod.mk.injEq .. ▸ h).2.symm
    | none =>
      rw [hl] at h
      cases hf : fetchDestinationBySlug st2 slug with
      | ok v =>
        rw [hf] at h
        exact Or.inr ⟨v, (Prod.mk.injEq .. ▸ h).1.symm,
          (Prod.mk.injEq .. ▸ h).2.symm⟩
      | error e2 =>
        rw [hf] at h
        exact Or.inl (Prod.mk.injEq .. ▸ h).2.symm

/-- Witness store for C10: the connection is down. -/
def c10store : Store := ⟨[], [], some "connection refused"⟩

/-- C10 witness: with a failing connection and an empty cache, resolving
`"s"` returns the connection error and caches nothing. -/
theorem c10_fetch_error_not_cached_witness :
    fetchCachedDestinationBySlug c10store [] "s"
      = (.error (.connection "connection refused"), [])
    ∧ cacheLookup (fetchCachedDestinationBySlug c10store [] "s").2 "s"
        = none :=
  ⟨(c10_fetch_error_not_cached c10store [] "s"
      (.connection "connection refused") rfl rfl).1,
   (c10_fetch_error_not_cached c10store [] "s"
      (.connection "connection refused") rfl rfl).2.1⟩

/-! ## C1 — every slug-changing mutation invalidates the cache entry -/

/-- C1: each mutating operation that changes what a slug resolves to —
`create_destination`, `update_destination`, `delete_destination`,
`create_alias`, `delete_alias` — returns success only with the cache entry
for the affected slug removed: the durable write has committed and the
invalidation has run before `Ok` reaches the caller. -/
theorem c1_mutations_invalidate_cache (st : AppState) (newId : Uuid)
    (now : Timestamp) (vc : CreateDestinationValues) (dU : Destination)
    (vu : UpdateDestinationValues) (dD : Destination) (dA : Destination)
    (va : CreateAliasValues) (a : Alias)
    (hc : (createDestination st newId now vc).1.isOk = true)
    (hu : (updateDestination st dU vu now).1.isOk = true)
    (hd : (deleteDestination st dD now).1.isOk = true)
    (ha : (createAlias st newId now dA va).1.isOk = true)
    (hda : (deleteAlias st a now).1.isOk = true) :
    cacheLookup (createDestination st newId now vc).2.cache vc.slug = none
    ∧ cacheLookup (updateDestination st dU vu now).2.cache dU.slug = none
    ∧ cacheLookup (deleteDestination st dD now).2.cache dD.slug = none
    ∧ cacheLookup (createAlias st newId now dA va).2.cache va.slug = none
    ∧ cacheLookup (deleteAlias st a now).2.cache a.slug = none := by
  cases hflt : st.store.connFault with
  | some m =>
    rw [deleteAlias] at hda
    rw [hflt] at hda
    simp [Except.isOk, Except.toBool] at hda
  | none =>
    refine ⟨?_, ?_, ?_, ?_, ?_⟩
    · rw [createDestination, hflt]
      exact cacheLookup_invalidate ..
    · rw [updateDestination, hflt] at hu ⊢
      cases hrow : st.store.destinations.find? (fun d => d.id = dU.id) with
      | none =>
        rw [hrow] at hu
        simp [Except.isOk, Except.toBool] at hu
      | some row =>
        exact cacheLookup_invalidate ..
    · rw [deleteDestination, hflt]
      exact cacheLookup_invalidate ..
    · rw [createAlias, hflt]
      exact cacheLookup_invalidate ..
    · rw [deleteAlias, hflt]
      exact cacheLookup_invalidate ..

/-- Witness destination for C1, present in the store. -/
def c1dest : Destination :=
  ⟨1, 0, "one", "https://example.com/1", false, false, 0, 0, none⟩

/-- Witness alias for C1, present in the store. -/
def c1alias : Alias := ⟨2, 0, "two", 1, 0, 0, none⟩

/-- Witness state for C1: live store and a cache entry for every slug the
mutations touch. -/
def c1state : AppState :=
  ⟨⟨[c1dest], [c1alias], none⟩,
   [("one", some (.destinationExists c1dest)),
    ("two", some (.aliasExists c1alias c1dest)),
    ("three", none)],
   [], false⟩

/-- C1 witness: at a live store, all five mutations succeed and the cache
entries for the slugs they affect are gone. -/
theorem c1_mutations_invalidate_cache_witness :
    cacheLookup (createDestination c1state 7 9
      ⟨0, "three", "https://example.com/3", false, false⟩).2.cache "three" = none
    ∧ cacheLookup (updateDestination c1state c1dest
        ⟨some "https://example.com/n", none, none⟩ 9).2.cache "one" = none
    ∧ cacheLookup (deleteDestination c1state c1dest 9).2.cache "one" = none
    ∧ cacheLookup (createAlias c1state 8 9 c1dest ⟨0, "four"⟩).2.cache "four"
        = none
    ∧ cacheLookup (deleteAlias c1state c1alias 9).2.cache "two" = none :=
  c1_mutations_invalidate_cache c1state 7 9
    ⟨0, "three", "https://example.com/3", false, false⟩ c1dest
    ⟨some "https://example.com/n", none, none⟩ c1dest c1dest ⟨0, "four"⟩
    c1alias (by decide) (by decide) (by decide) (by decide) (by decide)

/-! ## C3 — a full hit queue makes enqueue wait, not fail fast -/

/-- Witness hit record for C3. -/
def c3hit : PageHitInformation := ⟨1, none, none, none, 0⟩

/-- State for C3: the page-hit queue holds exactly its capacity of 10000
records and the consumer still lives. -/
def c3full : AppState :=
  ⟨⟨[], [], none⟩, [], List.replicate 10000 c3hit, false⟩

/-- C3 counterexample: with the queue at its capacity of 10000 and the
channel open, `schedule_save_hit` does not return a `SchedulingError` —
the bounded `send(...).await` suspends until capacity frees, so the caller
blocks instead of failing fast. -/
theorem c3_counterexample :
    scheduleSaveHit c3full 1 none none none 0
      = ScheduleOutcome.waitsForCapacity
    ∧ (scheduleSaveHit c3full 1 none none none 0).isSchedulingError
        = false := by
  have h1 : c3full.hitChannelClosed = false := rfl
  have h2 : c3full.hitQueue.length = 10000 := List.length_replicate ..
  have h : scheduleSaveHit c3full 1 none none none 0
      = ScheduleOutcome.waitsForCapacity := by
    rw [scheduleSaveHit, mpscSend, h1, h2]
    norm_num [PAGE_HIT_COLLECTOR_CHANNEL_CAPACITY]
  exact ⟨h, by rw [h]; rfl⟩

/-- C3 as amended: once the hit queue is at capacity and the consumer
lives, a further enqueue suspends waiting for capacity (it neither errors
nor returns); a `SchedulingError` is returned only when the channel is
closed, i.e. the consumer is gone. -/
theorem c3_amended_full_queue_waits (st : AppState) (destId : Uuid)
    (aliasId : Option Uuid) (ip : Option IpAddr) (ua : Option String)
    (now : Timestamp)
    (hopen : st.hitChannelClosed = false)
    (hfull : PAGE_HIT_COLLECTOR_CHANNEL_CAPACITY ≤ st.hitQueue.length) :
    scheduleSaveHit st destId aliasId ip ua now
      = ScheduleOutcome.waitsForCapacity
    ∧ ∀ st2 : AppState, st2.hitChannelClosed = true →
        scheduleSaveHit st2 destId aliasId ip ua now
          = ScheduleOutcome.schedulingError
              (.pageHitScheduling
                "Could not schedule page hit: channel closed") := by
  constructor
  · simp [scheduleSaveHit, mpscSend, hopen, Nat.not_lt.mpr hfull]
  · intro st2 h2
    simp [scheduleSaveHit, mpscSend, h2]

/-- C3 amended witness: at the full-queue state the enqueue suspends. -/
theorem c3_amended_full_queue_waits_witness :
    scheduleSaveHit c3full 1 none none none 0
      = ScheduleOutcome.waitsForCapacity :=
  (c3_amended_full_queue_waits c3full 1 none none none 0 rfl
    (by rw [show c3full.hitQueue.length = 10000 from List.length_replicate ..]
        norm_num [PAGE_HIT_COLLECTOR_CHANNEL_CAPACITY])).1

/-! ## C4 — hit failures ARE surfaced to the HTTP caller -/

/-- Destination for C4: live, no query forwarding. -/
def c4dest : Destination :=
  ⟨1, 0, "a", "https://example.com/x", false, false, 0, 0, none⟩

/-- State for C4: the slug `a` resolves (cached) to the live `c4dest`, but
the page-hit channel is closed, so scheduling the hit fails. -/
def c4state : AppState :=
  ⟨⟨[c4dest], [], none⟩, [("a", some (.destinationExists c4dest))], [], true⟩

/-- C4 counterexample: with a found summary and a failing hit schedule,
`root` does NOT complete the redirect — the `map_err(internal_error)?` on
`save_hit` surfaces the scheduling failure as a 500 error response. -/
theorem c4_counterexample :
    (rootAfterDecode c4state "a" none none none 0).1
      = RootOutcome.errorResponse 500
          (renderErrorTemplate
            "Page hit scheduling error: Could not schedule page hit: channel closed")
    ∧ (rootAfterDecode c4state "a" none none none 0).1
        ≠ RootOutcome.redirectTemporary "https://example.com/x" := by
  constructor
  · rfl
  · decide

/-- C4 as amended: a failure to schedule the hit is surfaced to the HTTP
caller — for every slug resolving to a found summary, when the hit channel
is closed `root` returns a 500 error response carrying the scheduling
error, instead of the redirect or 410. -/
theorem c4_amended_hit_failure_is_surfaced (st : AppState) (slug : String)
    (summary : SlugFoundSummary) (cache2 : CacheMap) (q : Option String)
    (ip : Option IpAddr) (ua : Option String) (now : Timestamp)
    (hres : fetchCachedDestinationBySlug st.store st.cache slug
      = (.ok (some summary), cache2))
    (hclosed : st.hitChannelClosed = true) :
    (rootAfterDecode st slug q ip ua now).1
      = RootOutcome.errorResponse 500
          (renderErrorTemplate
            (DbError.toDisplay (.pageHitScheduling
              "Could not schedule page hit: channel closed"))) := by
  rw [rootAfterDecode, hres]
  simp [scheduleSaveHit, mpscSend, hclosed, internalError]

/-- C4 amended witness: the concrete closed-channel state gets the 500. -/
theorem c4_amended_hit_failure_is_surfaced_witness :
    (rootAfterDecode c4state "a" none none none 0).1
      = RootOutcome.errorResponse 500
          (renderErrorTemplate
            (DbError.toDisplay (.pageHitScheduling
              "Could not schedule page hit: channel closed"))) :=
  c4_amended_hit_failure_is_surfaced c4state "a"
    (.destinationExists c4dest) [("a", some (.destinationExists c4dest))]
    none none none 0 rfl rfl

/-! ## C5 — deleted summaries get 410 Gone plus exactly one hit -/

/-- C5: a slug resolving to a deleted summary (`DestinationDeleted` or
`AliasDeleted`) gets the 410 Gone error page, never a 307/308 redirect,
and exactly one hit record for the request is appended to the hit queue
(gone destinations are still measured). -/
theorem c5_gone_gets_410_and_one_hit (st : AppState) (slug : String)
    (summary : SlugFoundSummary) (cache2 : CacheMap) (q : Option String)
    (ip : Option IpAddr) (ua : Option String) (now : Timestamp)
    (hres : fetchCachedDestinationBySlug st.store st.cache slug
      = (.ok (some summary), cache2))
    (hgone : summary.isDeleted = true)
    (hopen : st.hitChannelClosed = false)
    (hroom : st.hitQueue.length < PAGE_HIT_COLLECTOR_CHANNEL_CAPACITY) :
    (rootAfterDecode st slug q ip ua now).1
      = RootOutcome.errorResponse 410
          (renderErrorTemplate "Page not longer exists")
    ∧ (rootAfterDecode st slug q ip ua now).2.hitQueue
        = st.hitQueue
          ++ [⟨summary.destination.id, summary.aliasOf.map (fun a => a.id),
               ip, ua, now⟩]
    ∧ ∀ l, (rootAfterDecode st slug q ip ua now).1
          ≠ RootOutcome.redirectTemporary l
        ∧ (rootAfterDecode st slug q ip ua now).1
          ≠ RootOutcome.redirectPermanent l := by
  have hmain :
      rootAfterDecode st slug q ip ua now
        = (RootOutcome.errorResponse 410
            (renderErrorTemplate "Page not longer exists"),
           { st with
              cache := cache2,
              hitQueue := st.hitQueue
                ++ [⟨summary.destination.id,
                     summary.aliasOf.map (fun a => a.id), ip, ua, now⟩] }) := by
    rw [rootAfterDecode, hres]
    simp [scheduleSaveHit, mpscSend, hopen, hroom, hgone]
  rw [hmain]
  refine ⟨rfl, rfl, fun l => ⟨by simp, by simp⟩⟩

/-- Destination for the C5 witness: soft-deleted at time 3. -/
def c5dest : Destination :=
  ⟨1, 0, "gonepage", "https://example.com/g", false, false, 0, 0, some 3⟩

/-- State for the C5 witness: `gonepage` cached as a deleted destination,
hit channel open and empty. -/
def c5state : AppState :=
  ⟨⟨[c5dest], [], none⟩,
   [("gonepage", some (.destinationDeleted c5dest none))], [], false⟩

/-- C5 witness: the deleted destination gets the 410 page and exactly one
hit is queued. -/
theorem c5_gone_gets_410_and_one_hit_witness :
    (rootAfterDecode c5state "gonepage" none none none 7).1
      = RootOutcome.errorResponse 410
          (renderErrorTemplate "Page not longer exists")
    ∧ (rootAfterDecode c5state "gonepage" none none none 7).2.hitQueue
        = [⟨1, none, none, none, 7⟩] := by
  have h := c5_gone_gets_410_and_one_hit c5state "gonepage"
    (.destinationDeleted c5dest none)
    [("gonepage", some (.destinationDeleted c5dest none))] none none none 7
    rfl rfl rfl (by decide)
  exact ⟨h.1, by rw [h.2.1]; rfl⟩

/-! ## C7 — query-parameter forwarding with destination precedence -/

/-- C7: when the destination forwards query parameters and the request
carries a query string, `root` redirects to the destination URL whose
query is the destination's own pairs followed by exactly those incoming
pairs whose names are absent from the destination URL, in incoming order
with repeats kept — destination pairs are never overwritten. -/
theorem c7_query_forwarding (st : AppState) (slug : String)
    (summary : SlugFoundSummary) (cache2 : CacheMap) (q : String)
    (ip : Option IpAddr) (ua : Option String) (now : Timestamp)
    (hres : fetchCachedDestinationBySlug st.store st.cache slug
      = (.ok (some summary), cache2))
    (hlive : summary.isDeleted = false)
    (hfwd : summary.destination.forwardQueryParameters = true)
    (hopen : st.hitChannelClosed = false)
    (hroom : st.hitQueue.length < PAGE_HIT_COLLECTOR_CHANNEL_CAPACITY) :
    (rootAfterDecode st slug (some q) ip ua now).1
      = (if summary.destination.isPermanent then
           RootOutcome.redirectPermanent
             (renderUrl (parseUrl summary.destination.url).1
               (mergeQueryParams (parseUrl summary.destination.url).2
                 (parseQueryPairs q)))
         else
           RootOutcome.redirectTemporary
             (renderUrl (parseUrl summary.destination.url).1
               (mergeQueryParams (parseUrl summary.destination.url).2
                 (parseQueryPairs q))))
    ∧ mergeQueryParams (parseUrl summary.destination.url).2
          (parseQueryPairs q)
        = (parseUrl summary.destination.url).2
          ++ (parseQueryPairs q).filter
              (fun p =>
                !((parseUrl summary.destination.url).2.map Prod.fst).contains
                  p.1) := by
  constructor
  · rw [rootAfterDecode, hres]
    simp only [scheduleSaveHit, mpscSend, hopen, hroom, hlive, hfwd]
    simp [hroom]
    split <;> rfl
  · exact mergeQueryParams_eq ..

/-- Destination for the C7 witness: the spec's example, its URL already
carrying `page=1` and forwarding enabled. -/
def c7dest : Destination :=
  ⟨1, 0, "ex", "https://example.com/x?page=1", false, true, 0, 0, none⟩

/-- State for the C7 witness: `ex` cached as the live `c7dest`. -/
def c7state : AppState :=
  ⟨⟨[c7dest], [], none⟩, [("ex", some (.destinationExists c7dest))], [],
   false⟩

/-- C7 witness — the spec's example: destination
`https://example.com/x?page=1` with incoming `?page=2&foo=bar` redirects to
`https://example.com/x?page=1&foo=bar` (existing `page` wins, `foo` is
appended). -/
theorem c7_query_forwarding_witness :
    (rootAfterDecode c7state "ex" (some "page=2&foo=bar") none none 0).1
      = RootOutcome.redirectTemporary "https://example.com/x?page=1&foo=bar" := by
  have h := c7_query_forwarding c7state "ex" (.destinationExists c7dest)
    [("ex", some (.destinationExists c7dest))] "page=2&foo=bar" none none 0
    rfl rfl rfl rfl (by decide)
  rw [h.1]
  decide

/-! ## C9 — 500 payloads embed the specific error message -/

/-- C9 counterexample: two distinct store errors produce DIFFERENT rendered
500 payloads — `internal_error` injects the error's display string into the
template, so the payload is not a fixed generic page (both still carry
status 500). -/
theorem c9_counterexample :
    (internalError (.connection "error A")).2
      ≠ (internalError (.connection "error B")).2
    ∧ (internalError (.connection "error A")).1 = 500
    ∧ (internalError (.connection "error B")).1 = 500 := by
  refine ⟨?_, rfl, rfl⟩
  decide

/-- C9 as amended: a store or cache error during resolution maps to a 500
outcome whose body is the error template with that specific error's
display message rendered in — the status is uniformly 500, but distinct
errors may produce distinct payloads. -/
theorem c9_amended_500_embeds_error (st : AppState) (slug : String)
    (e : DbError) (cache2 : CacheMap) (q : Option String)
    (ip : Option IpAddr) (ua : Option String) (now : Timestamp)
    (hres : fetchCachedDestinationBySlug st.store st.cache slug
      = (.error e, cache2)) :
    (rootAfterDecode st slug q ip ua now).1
      = RootOutcome.errorResponse 500 (renderErrorTemplate e.toDisplay) := by
  rw [rootAfterDecode, hres]
  rfl

/-- Store for the C9 witness: the connection is down. -/
def c9state : AppState :=
  ⟨⟨[], [], some "timed out"⟩, [], [], false⟩

/-- C9 amended witness: the down connection yields the 500 page with the
connection error rendered in. -/
theorem c9_amended_500_embeds_error_witness :
    (rootAfterDecode c9state "s" none none none 0).1
      = RootOutcome.errorResponse 500
          (renderErrorTemplate (DbError.toDisplay (.connection "timed out"))) :=
  c9_amended_500_embeds_error c9state "s" (.connection "timed out") [] none
    none none 0 rfl

/-! ## C8 — the path trim removes ALL separators, not exactly one -/

/-- Dropping leading `c`s leaves the list as its fully trimmed core plus a
trailing run of `c`s. -/
theorem dropWhile_eq_trim_append (c : Char) (l : List Char) :
    l.dropWhile (fun x => x = c)
      = trimCharList c l
        ++ List.replicate
            ((l.dropWhile (fun x => x = c)).reverse.takeWhile
              (fun x => x = c)).length c := by
  have htk := takeWhile_eq_val_replicate c (l.dropWhile (fun x => x = c)).reverse
  calc
    l.dropWhile (fun x => x = c)
        = (l.dropWhile (fun x => x = c)).reverse.reverse :=
      (List.reverse_reverse _).symm
    _ = ((l.dropWhile (fun x => x = c)).reverse.takeWhile (fun x => x = c)
          ++ (l.dropWhile (fun x => x = c)).reverse.dropWhile
              (fun x => x = c)).reverse := by
      rw [List.takeWhile_append_dropWhile]
    _ = ((l.dropWhile (fun x => x = c)).reverse.dropWhile
            (fun x => x = c)).reverse
          ++ ((l.dropWhile (fun x => x = c)).reverse.takeWhile
              (fun x => x = c)).reverse := by
      rw [List.reverse_append]
    _ = trimCharList c l
          ++ List.replicate
              ((l.dropWhile (fun x => x = c)).reverse.takeWhile
                (fun x => x = c)).length c := by
      conv_lhs => rw [htk]
      rw [List.reverse_replicate]
      rfl

/-- `trim_matches` decomposition: the original list is a leading run of the
trimmed character, the trimmed core, and a trailing run. -/
theorem trimCharList_decomp (c : Char) (l : List Char) :
    ∃ k m, l = List.replicate k c ++ trimCharList c l ++ List.replicate m c := by
  refine ⟨(l.takeWhile (fun x => x = c)).length,
    ((l.dropWhile (fun x => x = c)).reverse.takeWhile
      (fun x => x = c)).length, ?_⟩
  conv_lhs => rw [← List.takeWhile_append_dropWhile (fun x => x = c) l]
  conv_lhs => rw [dropWhile_eq_trim_append c l]
  conv_rhs => rw [← takeWhile_eq_val_replicate c l]
  rw [List.append_assoc]

/-- The trimmed core does not start with the trimmed character. -/
theorem trimCharList_head (c : Char) (l : List Char) (a : Char)
    (h : (trimCharList c l).head? = some a) : ¬ a = c := by
  cases htr : trimCharList c l with
  | nil => rw [htr] at h; simp at h
  | cons x t =>
    rw [htr] at h
    simp only [List.head?_cons, Option.some.injEq] at h
    have hx : (l.dropWhile (fun x => x = c)).head? = some x := by
      rw [dropWhile_eq_trim_append c l, htr]
      rfl
    have hfx :=
      of_decide_eq_false (head?_dropWhile_false (fun x => decide (x = c)) l hx)
    rw [← h]
    exact hfx

/-- The trimmed core does not end with the trimmed character. -/
theorem trimCharList_getLast (c : Char) (l : List Char) (a : Char)
    (h : (trimCharList c l).getLast? = some a) : ¬ a = c := by
  unfold trimCharList at h
  rw [List.getLast?_reverse] at h
  exact of_decide_eq_false
    (head?_dropWhile_false (fun x => decide (x = c))
      (l.dropWhile (fun x => x = c)).reverse h)

/-- C8 counterexample: for the path `//a//`, the code's
`trim_matches('/')` yields `a`, while trimming exactly one leading and one
trailing separator as the claim states would yield `/a/` — the two
disagree; the code's lookup key (identity decode on plain ASCII) is `a`. -/
theorem c8_counterexample :
    trimMatches '/' "//a//" = "a"
    ∧ trimOneSeparatorEach "//a//" = "/a/"
    ∧ trimMatches '/' "//a//" ≠ trimOneSeparatorEach "//a//"
    ∧ formSlugKey (fun s => .ok s) "//a//" = .ok "a" :=
  ⟨by decide, by decide, by decide, by rfl⟩

/-- C8 as amended: slug extraction trims ALL leading and ALL trailing path
separators (the maximal run at each end) before percent-decoding and NFC
normalization: the path splits as a run of `/`, the lookup core, and a run
of `/`, the core neither starts nor ends with `/`, `trim_matches` is that
core, and the decode step receives the trimmed core. -/
theorem c8_amended_trim_all_separators (path : String) :
    (∃ k m, path.toList
        = List.replicate k '/' ++ trimCharList '/' path.toList
          ++ List.replicate m '/')
    ∧ (∀ a, (trimCharList '/' path.toList).head? = some a → ¬ a = '/')
    ∧ (∀ a, (trimCharList '/' path.toList).getLast? = some a → ¬ a = '/')
    ∧ trimMatches '/' path = (trimCharList '/' path.toList).asString
    ∧ ∀ (dec : String → Except (Nat × String) String) (p2 : String),
        formSlugKey dec p2 = dec (trimMatches '/' p2) :=
  ⟨trimCharList_decomp '/' path.toList,
   fun a h => trimCharList_head '/' path.toList a h,
   fun a h => trimCharList_getLast '/' path.toList a h,
   rfl, fun dec p2 => rfl⟩

end Shurly
